import Mathlib

/-!
Verification of the wind-to-power estimation pipeline of the wind dashboard
application (src/Home/app.py).

Modelling conventions:
- Python floats are modelled as real numbers.  Raw fetched wind speeds are
  modelled as rationals (they arrive as decimal literals from the weather
  service) and are coerced to reals for the derived computations.
- Timestamps are modelled as integers (UTC seconds); 48 hours is 172800
  seconds.
- A pandas DataFrame of hourly rows is modelled as a list of records.
- A raised exception is modelled as the value none of an Option type.

The definitions mirror src/Home/app.py:
- adjust_height              (app.py lines 74-76)
- turbine_power_from_wind    (app.py lines 78-84)
- fetch_wind_data            (app.py lines 56-72, the parse step after the
  HTTP transport: the hourly block of the JSON response carries optional
  parallel arrays time and windspeed_10m; a DataFrame built from two
  parallel arrays of unequal length raises, modelled as none)
- mergeSeries / enrichSeries / runPipeline / next48
                             (app.py lines 139-171, the run_fetch pipeline)
-/

namespace WindApp

/-- Provenance tag attached to each row of the merged series
(app.py lines 142-143). -/
inductive Source where
  | history
  | forecast
deriving DecidableEq, Repr

/-- One hourly row as fetched: UTC timestamp and wind speed at 10 m,
with the source tag added before merging. -/
structure WindSample where
  time_utc : ℤ
  wind_m_s : ℚ
  source : Source
deriving DecidableEq, Repr

/-- One row of the merged series after the derived columns are added
(app.py lines 146-148). -/
structure EnrichedRecord where
  time_utc : ℤ
  wind_m_s : ℚ
  wind_hub_m_s : ℝ
  power_kW : ℝ
  energy_kWh : ℝ
  source : Source

/-- Model of adjust_height (app.py lines 74-76): power-law wind-shear
scaling of a wind speed from height z_from to height z_to.  The exponent
is a real number, so the power is the real power function. -/
noncomputable def adjust_height (wind_series z_from z_to alpha : ℝ) : ℝ :=
  let factor := (z_to / z_from) ^ alpha
  wind_series * factor

/-- Model of turbine_power_from_wind (app.py lines 78-84): swept area,
cubic aerodynamic power in watts, zeroed outside [cut_in, cut_out],
clamped at rated power, returned in kilowatts.  The parameter rated_wind
is accepted but unused, exactly as in the source.  As a Lean function it
is total over all real v. -/
noncomputable def turbine_power_from_wind (v rotor_diameter cp air_density
    rated_power_kw cut_in cut_out rated_wind : ℝ) : ℝ :=
  let A := Real.pi * (rotor_diameter / 2) ^ 2
  let P_watt := 0.5 * air_density * A * cp * v ^ 3
  let P_cut := if v < cut_in ∨ v > cut_out then 0 else P_watt
  let P_clamped := min P_cut (rated_power_kw * 1000)
  P_clamped / 1000

/-- The hourly block of the weather-service JSON response: two optional
parallel arrays (app.py lines 67-69 read them with .get defaults). -/
structure HourlyBlock where
  time : Option (List ℤ)
  windspeed_10m : Option (List ℚ)
deriving DecidableEq, Repr

/-- Model of the parse step of fetch_wind_data (app.py lines 67-72).
The hourly block itself may be absent (json .get with default empty
dict); each array may be absent (.get with default empty list).  If the
time array is empty the function returns an empty series.  Otherwise a
DataFrame is built from the two parallel arrays, which succeeds exactly
when their lengths agree and raises otherwise (modelled as none). -/
def fetch_wind_data (hourly : Option HourlyBlock) : Option (List (ℤ × ℚ)) :=
  let h := hourly.getD ⟨none, none⟩
  let times := h.time.getD []
  let ws := h.windspeed_10m.getD []
  if times = [] then some []
  else if times.length = ws.length then some (times.zip ws) else none

/-- Tagging of the rows of one fetched frame with its source label
(app.py lines 142-143). -/
def tagSource (s : Source) (rows : List (ℤ × ℚ)) : List WindSample :=
  rows.map (fun r => ⟨r.1, r.2, s⟩)

/-- Model of the merge step (app.py line 145): concatenate the history
and forecast frames and sort by timestamp.  pandas sort_values is a
comparison sort on the timestamp column; it is modelled by insertion
sort on the timestamp key. -/
def mergeSeries (hist_df fc_df : List WindSample) : List WindSample :=
  List.insertionSort (fun a b => a.time_utc ≤ b.time_utc) (hist_df ++ fc_df)

/-- Model of the enrichment of one row (app.py lines 146-148): hub-height
wind speed via adjust_height from 10 m, power via turbine_power_from_wind
with the default air density, cut-in, cut-out and rated wind of the
source, and hourly energy numerically equal to power. -/
noncomputable def enrichRow (hub_height alpha rotor_diameter cp
    rated_power_kw : ℝ) (s : WindSample) : EnrichedRecord :=
  let hub := adjust_height (s.wind_m_s : ℝ) 10 hub_height alpha
  let p := turbine_power_from_wind hub rotor_diameter cp 1.225
    rated_power_kw 3.5 25 12
  ⟨s.time_utc, s.wind_m_s, hub, p, p, s.source⟩

/-- Row-wise enrichment of a merged series (app.py lines 146-148). -/
noncomputable def enrichSeries (hub_height alpha rotor_diameter cp
    rated_power_kw : ℝ) (df : List WindSample) : List EnrichedRecord :=
  df.map (enrichRow hub_height alpha rotor_diameter cp rated_power_kw)

/-- Model of the run_fetch pipeline after the two fetches (app.py lines
139-148): if both fetched frames are empty the run stops with the
no-data condition (none) and produces no enriched output; otherwise the
frames are tagged, merged and enriched. -/
noncomputable def runPipeline (hub_height alpha rotor_diameter cp
    rated_power_kw : ℝ) (hist_df fc_df : List (ℤ × ℚ)) :
    Option (List EnrichedRecord) :=
  if hist_df = [] ∧ fc_df = [] then none
  else some (enrichSeries hub_height alpha rotor_diameter cp rated_power_kw
    (mergeSeries (tagSource .history hist_df) (tagSource .forecast fc_df)))

/-- Model of the 48-hour window selection (app.py lines 170-171): keep
the rows whose timestamp lies in the closed interval from now to
now + 48 hours (172800 seconds). -/
def next48 (df : List EnrichedRecord) (now_utc : ℤ) : List EnrichedRecord :=
  df.filter (fun r => now_utc ≤ r.time_utc ∧ r.time_utc ≤ now_utc + 172800)

/-- C1: for every real hub-height wind speed v and every parameter set
satisfying the stated TurbineConfig constraints (rated power positive,
cut_out above cut_in which is non-negative, positive rotor diameter, air
density and Cp with Cp at most one), the power computed by
turbine_power_from_wind lies in the closed interval from 0 to the rated
power. -/
theorem C1_power_bounded (v D cp ρ R ci co rw : ℝ) (hR : 0 < R)
    (hci : 0 ≤ ci) (hcico : ci < co) (hD : 0 < D) (hρ : 0 < ρ)
    (hcp0 : 0 < cp) (hcp1 : cp ≤ 1) :
    0 ≤ turbine_power_from_wind v D cp ρ R ci co rw ∧
      turbine_power_from_wind v D cp ρ R ci co rw ≤ R := by
  simp only [turbine_power_from_wind]
  by_cases h : v < ci ∨ v > co
  · rw [if_pos h, min_eq_left (by positivity)]
    norm_num
    exact hR.le
  · rw [if_neg h]
    push_neg at h
    have hv : 0 ≤ v := hci.trans h.1
    have hP : 0 ≤ 0.5 * ρ * (Real.pi * (D / 2) ^ 2) * cp * v ^ 3 := by
      positivity
    constructor
    · exact div_nonneg (le_min hP (by positivity)) (by norm_num)
    · rw [div_le_iff₀ (by norm_num : (0:ℝ) < 1000)]
      exact min_le_right _ _

/-- C1 witness: the bound evaluated at the default configuration of the
source with a hub wind of 5. -/
theorem C1_power_bounded_witness :
    0 ≤ turbine_power_from_wind 5 77 0.4 1.225 1500 3.5 25 12 ∧
      turbine_power_from_wind 5 77 0.4 1.225 1500 3.5 25 12 ≤ 1500 :=
  C1_power_bounded 5 77 0.4 1.225 1500 3.5 25 12 (by norm_num)
    (by norm_num) (by norm_num) (by norm_num) (by norm_num) (by norm_num)
    (by norm_num)

/-- C2: for every real v strictly below cut-in or strictly above cut-out,
turbine_power_from_wind returns exactly 0 (the rated power being
positive), whatever the raw cubic value is; in particular every negative
v with non-negative cut-in yields 0.  Totality over all real v is
inherent in the model: the function is a total function of ℝ. -/
theorem C2_outside_cut_zero (v D cp ρ R ci co rw : ℝ) (hR : 0 < R)
    (hv : v < ci ∨ v > co) :
    turbine_power_from_wind v D cp ρ R ci co rw = 0 := by
  simp only [turbine_power_from_wind]
  rw [if_pos hv, min_eq_left (by positivity)]
  norm_num

/-- C2 witness: a negative wind speed at the default configuration of
the source yields exactly zero power. -/
theorem C2_outside_cut_zero_witness :
    turbine_power_from_wind (-4) 77 0.4 1.225 1500 3.5 25 12 = 0 :=
  C2_outside_cut_zero (-4) 77 0.4 1.225 1500 3.5 25 12 (by norm_num)
    (Or.inl (by norm_num))

/-- Splitting a division by 1000 across a minimum of two reals. -/
lemma min_div_thousand (a b : ℝ) : min a b / 1000 = min (a / 1000) (b / 1000) := by
  rcases le_total a b with h | h
  · rw [min_eq_left h, min_eq_left (by linarith)]
  · rw [min_eq_right h, min_eq_right (by linarith)]

/-- C3 counterexample: with rotor diameter 2, Cp one half, air density 1,
rated power 1, cut_in 0, cut_out 1 and rated_wind 2 — a configuration
satisfying every stated TurbineConfig field constraint — the speeds 1 and
2 both lie in the interval from cut_in to rated_wind, yet the power at 2
(namely 0, since 2 exceeds cut_out) is strictly below the power at 1
(namely pi over 4000), so the function is not monotone on that
interval. -/
theorem C3_counterexample :
    turbine_power_from_wind 2 2 (1/2) 1 1 0 1 2
      < turbine_power_from_wind 1 2 (1/2) 1 1 0 1 2 := by
  have h1 : turbine_power_from_wind 2 2 (1/2) 1 1 0 1 2 = 0 := by
    simp only [turbine_power_from_wind]
    rw [if_pos (Or.inr (by norm_num)), min_eq_left (by norm_num)]
    norm_num
  have h2 : turbine_power_from_wind 1 2 (1/2) 1 1 0 1 2
      = Real.pi / 4 / 1000 := by
    simp only [turbine_power_from_wind]
    rw [if_neg (by push_neg; constructor <;> norm_num),
      min_eq_left (by nlinarith [Real.pi_le_four])]
    ring_nf
  rw [h1, h2]
  positivity

/-- C3 amended: with the other parameters fixed, positive air density and
Cp, non-negative cut_in and additionally rated_wind at most cut_out (true
of the default configuration, where rated_wind is 12 and cut_out 25),
turbine_power_from_wind is monotonically non-decreasing in v on the
interval from cut_in to rated_wind. -/
theorem C3_monotone_on_cut_interval (v1 v2 D cp ρ R ci co rw : ℝ)
    (hρ : 0 < ρ) (hcp : 0 < cp) (hci : 0 ≤ ci) (hrwco : rw ≤ co)
    (h1 : ci ≤ v1) (h12 : v1 ≤ v2) (h2 : v2 ≤ rw) :
    turbine_power_from_wind v1 D cp ρ R ci co rw
      ≤ turbine_power_from_wind v2 D cp ρ R ci co rw := by
  have hv1co : v1 ≤ co := le_trans h12 (le_trans h2 hrwco)
  have hv2co : v2 ≤ co := le_trans h2 hrwco
  have hv2ci : ci ≤ v2 := le_trans h1 h12
  simp only [turbine_power_from_wind]
  rw [if_neg (by push_neg; exact ⟨h1, hv1co⟩),
    if_neg (by push_neg; exact ⟨hv2ci, hv2co⟩)]
  have hX : (0:ℝ) ≤ 0.5 * ρ * (Real.pi * (D / 2) ^ 2) * cp := by positivity
  have h3 : v1 ^ 3 ≤ v2 ^ 3 := pow_le_pow_left₀ (hci.trans h1) h12 3
  have hm : 0.5 * ρ * (Real.pi * (D / 2) ^ 2) * cp * v1 ^ 3
      ≤ 0.5 * ρ * (Real.pi * (D / 2) ^ 2) * cp * v2 ^ 3 :=
    mul_le_mul_of_nonneg_left h3 hX
  rw [div_eq_mul_inv, div_eq_mul_inv]
  exact mul_le_mul_of_nonneg_right (min_le_min hm le_rfl) (by norm_num)

/-- C3 amended witness: monotonicity evaluated between 4 and 5 at the
default configuration of the source. -/
theorem C3_monotone_on_cut_interval_witness :
    turbine_power_from_wind 4 77 0.4 1.225 1500 3.5 25 12
      ≤ turbine_power_from_wind 5 77 0.4 1.225 1500 3.5 25 12 :=
  C3_monotone_on_cut_interval 4 5 77 0.4 1.225 1500 3.5 25 12
    (by norm_num) (by norm_num) (by norm_num) (by norm_num) (by norm_num)
    (by norm_num) (by norm_num)

/-- C4: for non-negative reference wind speed, positive heights and a
shear exponent strictly between 0 and 1, adjust_height computes exactly
the power-law scaling of the reference speed, and the result is
non-negative. -/
theorem C4_adjust_height_powerlaw (v z_from z_to alpha : ℝ) (hv : 0 ≤ v)
    (hfrom : 0 < z_from) (hto : 0 < z_to) (ha0 : 0 < alpha)
    (ha1 : alpha < 1) :
    adjust_height v z_from z_to alpha = v * (z_to / z_from) ^ alpha ∧
      0 ≤ adjust_height v z_from z_to alpha := by
  refine ⟨rfl, ?_⟩
  show 0 ≤ v * (z_to / z_from) ^ alpha
  exact mul_nonneg hv (Real.rpow_nonneg (div_pos hto hfrom).le alpha)

/-- C4 witness: the scaling evaluated at the default heights 10 m and
80 m and the default exponent 0.14, on a reference wind of 8. -/
theorem C4_adjust_height_powerlaw_witness :
    adjust_height 8 10 80 0.14 = 8 * ((80:ℝ) / 10) ^ (0.14:ℝ) ∧
      0 ≤ adjust_height 8 10 80 0.14 :=
  C4_adjust_height_powerlaw 8 10 80 0.14 (by norm_num) (by norm_num)
    (by norm_num) (by norm_num) (by norm_num)

/-- C9: at rotor diameter 77, Cp 0.4, air density 1.225, hub wind 12,
rated power 1500, cut_in 3.5, cut_out 25, the raw aerodynamic power in
watts exceeds 1500000, so turbine_power_from_wind returns exactly 1500:
the rated-power clamp binds. -/
theorem C9_rated_clamp_binds :
    (1500000 : ℝ) < 0.5 * 1.225 * (Real.pi * ((77:ℝ) / 2) ^ 2) * 0.4 * 12 ^ 3 ∧
      turbine_power_from_wind 12 77 0.4 1.225 1500 3.5 25 12 = 1500 := by
  have hraw : (1500000 : ℝ)
      < 0.5 * 1.225 * (Real.pi * ((77:ℝ) / 2) ^ 2) * 0.4 * 12 ^ 3 := by
    nlinarith [Real.pi_gt_three]
  refine ⟨hraw, ?_⟩
  simp only [turbine_power_from_wind]
  rw [if_neg (by push_neg; constructor <;> norm_num),
    min_eq_right (by linarith)]
  norm_num

/-- C10: boundary speeds are inclusive — at v equal to cut_in (positive)
or to cut_out, the zero branch is not taken and the function returns the
minimum of the cubic kilowatt value and the rated power, which is
strictly positive under the stated positivity constraints. -/
theorem C10_cut_boundaries_inclusive (D cp ρ R ci co rw : ℝ) (hD : 0 < D)
    (hcp : 0 < cp) (hρ : 0 < ρ) (hR : 0 < R) (hci : 0 < ci)
    (hcico : ci < co) :
    (turbine_power_from_wind ci D cp ρ R ci co rw
        = min (0.5 * ρ * Real.pi * (D / 2) ^ 2 * cp * ci ^ 3 / 1000) R ∧
      0 < turbine_power_from_wind ci D cp ρ R ci co rw) ∧
    (turbine_power_from_wind co D cp ρ R ci co rw
        = min (0.5 * ρ * Real.pi * (D / 2) ^ 2 * cp * co ^ 3 / 1000) R ∧
      0 < turbine_power_from_wind co D cp ρ R ci co rw) := by
  have hbody : ∀ v : ℝ, ci ≤ v → v ≤ co →
      turbine_power_from_wind v D cp ρ R ci co rw
        = min (0.5 * ρ * Real.pi * (D / 2) ^ 2 * cp * v ^ 3 / 1000) R := by
    intro v hvl hvr
    simp only [turbine_power_from_wind]
    rw [if_neg (by push_neg; exact ⟨hvl, hvr⟩), min_div_thousand]
    congr 1
    · ring
    · field_simp
  have hpos : ∀ v : ℝ, 0 < v →
      0 < 0.5 * ρ * Real.pi * (D / 2) ^ 2 * cp * v ^ 3 / 1000 := by
    intro v hv
    have hD2 : (0:ℝ) < (D / 2) ^ 2 := pow_pos (by linarith) 2
    have h5 : (0:ℝ) < 0.5 * ρ * Real.pi * (D / 2) ^ 2 * cp * v ^ 3 :=
      mul_pos (mul_pos (mul_pos (mul_pos (mul_pos (by norm_num) hρ)
        Real.pi_pos) hD2) hcp) (pow_pos hv 3)
    exact div_pos h5 (by norm_num)
  have h1 := hbody ci le_rfl hcico.le
  have h2 := hbody co hcico.le le_rfl
  refine ⟨⟨h1, ?_⟩, ⟨h2, ?_⟩⟩
  · rw [h1]
    exact lt_min (hpos ci hci) hR
  · rw [h2]
    exact lt_min (hpos co (hci.trans hcico)) hR

/-- C10 witness: strictly positive power exactly at the cut-in speed of
the default configuration of the source. -/
theorem C10_cut_boundaries_inclusive_witness :
    0 < turbine_power_from_wind 3.5 77 0.4 1.225 1500 3.5 25 12 :=
  (C10_cut_boundaries_inclusive 77 0.4 1.225 1500 3.5 25 12 (by norm_num)
    (by norm_num) (by norm_num) (by norm_num) (by norm_num)
    (by norm_num)).1.2

/-- C5 counterexample: a response whose hourly block carries a non-empty
time array but no windspeed_10m array does not yield an empty series —
the parallel arrays have unequal lengths, so the DataFrame construction
raises (modelled as none).  Only a missing or empty time array is
treated as no data. -/
theorem C5_counterexample :
    fetch_wind_data (some ⟨some [0], none⟩) = none := rfl

/-- C5 amended: an absent hourly block, an absent time array, or an
empty time array each yield an empty series and no error; but a
non-empty time array with an absent windspeed_10m array fails (the
DataFrame constructor raises on parallel arrays of unequal length)
instead of being treated as no data. -/
theorem C5_missing_array_cases (ts : List ℤ) (ws : Option (List ℚ))
    (h : ts ≠ []) :
    fetch_wind_data none = some [] ∧
    fetch_wind_data (some ⟨none, ws⟩) = some [] ∧
    fetch_wind_data (some ⟨some [], ws⟩) = some [] ∧
    fetch_wind_data (some ⟨some ts, none⟩) = none := by
  refine ⟨rfl, rfl, rfl, ?_⟩
  have hlen : ts.length ≠ ([] : List ℚ).length := by
    simpa [List.length_eq_zero] using h
  simp only [fetch_wind_data, Option.getD]
  rw [if_neg h, if_neg hlen]

/-- C5 amended witness: the no-data cases evaluated with a concrete
non-empty time array. -/
theorem C5_missing_array_cases_witness :
    fetch_wind_data none = some [] :=
  (C5_missing_array_cases [0] none (by decide)).1

/-- C6 counterexample: merging a one-row history frame and a one-row
forecast frame that share the timestamp 0 keeps both rows — the merged
series is not deduplicated by timestamp. -/
theorem C6_counterexample :
    mergeSeries [⟨0, 1, Source.history⟩] [⟨0, 2, Source.forecast⟩]
        = [⟨0, 1, Source.history⟩, ⟨0, 2, Source.forecast⟩] ∧
      ¬ (List.map WindSample.time_utc
          (mergeSeries [⟨0, 1, Source.history⟩]
            [⟨0, 2, Source.forecast⟩])).Nodup := by
  decide

/-- C6 amended: the merged series is sorted by timestamp before any
derived column is computed, and the enrichment step preserves the rows
and their timestamps one for one; coinciding timestamps across the two
sources are kept, not deduplicated. -/
theorem C6_merge_sorted_before_enrich (hh al D cp R : ℝ)
    (h f : List WindSample) :
    List.Sorted (fun a b => a.time_utc ≤ b.time_utc) (mergeSeries h f) ∧
      List.map EnrichedRecord.time_utc
          (enrichSeries hh al D cp R (mergeSeries h f))
        = List.map WindSample.time_utc (mergeSeries h f) := by
  constructor
  · haveI : IsTotal WindSample (fun a b => a.time_utc ≤ b.time_utc) :=
      ⟨fun a b => le_total a.time_utc b.time_utc⟩
    haveI : IsTrans WindSample (fun a b => a.time_utc ≤ b.time_utc) :=
      ⟨fun _ _ _ hab hbc => le_trans hab hbc⟩
    exact List.sorted_insertionSort _ _
  · simp only [enrichSeries, List.map_map]
    rfl

/-- C7: the pipeline reports the no-data condition (none) exactly when
both fetched frames are empty; when one side is empty the run proceeds
and the output has one enriched row per row of the other side. -/
theorem C7_no_data_iff_both_empty (hh al D cp R : ℝ)
    (hist fc : List (ℤ × ℚ)) :
    (runPipeline hh al D cp R hist fc = none ↔ hist = [] ∧ fc = []) ∧
      (runPipeline hh al D cp R [] fc).map List.length
        = (if fc = [] then none else some fc.length) ∧
      (runPipeline hh al D cp R hist []).map List.length
        = (if hist = [] then none else some hist.length) := by
  refine ⟨?_, ?_, ?_⟩
  · by_cases hc : hist = [] ∧ fc = []
    · simp [runPipeline, hc]
    · simp [runPipeline, hc]
  · by_cases hf : fc = []
    · simp [runPipeline, hf]
    · simp [runPipeline, hf, enrichSeries, mergeSeries, tagSource,
        List.length_insertionSort]
  · by_cases hh2 : hist = []
    · simp [runPipeline, hh2]
    · simp [runPipeline, hh2, enrichSeries, mergeSeries, tagSource,
        List.length_insertionSort]

/-- C8: every record selected into the 48-hour display window has its
timestamp inside the closed interval from now to now plus 48 hours
(172800 seconds); nothing outside that interval is included. -/
theorem C8_window_bounds (df : List EnrichedRecord) (now_utc : ℤ)
    (r : EnrichedRecord) (hr : r ∈ next48 df now_utc) :
    now_utc ≤ r.time_utc ∧ r.time_utc ≤ now_utc + 172800 := by
  simp only [next48, List.mem_filter, decide_eq_true_eq] at hr
  exact hr.2

/-- C8 witness: the window bound evaluated on a one-row series whose
timestamp equals now. -/
theorem C8_window_bounds_witness :
    (0:ℤ) ≤ (⟨0, 0, 0, 0, 0, Source.forecast⟩ : EnrichedRecord).time_utc ∧
      (⟨0, 0, 0, 0, 0, Source.forecast⟩ : EnrichedRecord).time_utc
        ≤ 0 + 172800 :=
  C8_window_bounds [⟨0, 0, 0, 0, 0, Source.forecast⟩] 0
    ⟨0, 0, 0, 0, 0, Source.forecast⟩ (by simp [next48, List.mem_filter])

end WindApp
